import Mathlib

/-!
Verification of the Texas county choropleth weather view.

The definitions below are a shallow embedding of the TypeScript sources:
the county name normalizer and county lookup from the map utilities, the
metric classifier getColor, the maplibre fill-color expression builder,
and the hazard / visibility display helpers of the county detail card.
JavaScript numbers are modelled as rationals, nullable fields as Option,
and the dynamic hazard entries as a small inductive type.
-/

namespace TexasChoropleth

/-- Whitespace in the sense of the JavaScript regexp class and of
String.prototype.trim: space, tab, line feed, vertical tab, form feed,
carriage return, no-break space and the BOM. -/
def jsWs (c : Char) : Bool :=
  c == ' ' || c == '\t' || c == '\n' || c.val == 11 || c.val == 12 ||
  c == '\r' || c.val == 160 || c.val == 65279

/-- Drop leading JavaScript whitespace. -/
def dropLeading (l : List Char) : List Char := l.dropWhile jsWs

/-- Drop trailing JavaScript whitespace. -/
def dropTrailing (l : List Char) : List Char := (l.reverse.dropWhile jsWs).reverse

/-- Embedding of String.prototype.trim on the character list of a string. -/
def jsTrim (l : List Char) : List Char := dropTrailing (dropLeading l)

/-- Test that a character list ends in the six letters of the word County,
case-insensitively, preceded by at least one whitespace character: exactly
the strings matched by the anchored case-insensitive regexp used in the
source, one or more whitespace characters followed by County at the end. -/
def endsWithWsCounty (cs : List Char) : Bool :=
  let r := cs.reverse
  ((r.take 6).map Char.toLower == "ytnuoc".data) &&
  (match r.drop 6 with
   | [] => false
   | c :: _ => jsWs c)

/-- Remove the final County word when the anchored regexp matches.  The
whitespace run in front of it is left in place: the subsequent trim removes
it, so the composite agrees with the replacement by the empty string. -/
def stripCountySuffix (cs : List Char) : List Char :=
  if endsWithWsCounty cs then (cs.reverse.drop 6).reverse else cs

/-- Embedding of normalizeCountyName from the county service: replace a
trailing whitespace-plus-County (case-insensitive) by nothing, then trim. -/
def normalizeCountyName (s : String) : String :=
  ⟨jsTrim (stripCountySuffix s.data)⟩

/- Support lemmas about dropWhile used for the trim idempotence argument. -/

theorem dropWhile_dropWhile (p : Char → Bool) (l : List Char) :
    List.dropWhile p (List.dropWhile p l) = List.dropWhile p l := by
  induction l with
  | nil => rfl
  | cons a t ih =>
    by_cases h : p a
    · simp [List.dropWhile_cons, h, ih]
    · simp [List.dropWhile_cons, h]

theorem exists_append_dropWhile (p : Char → Bool) (l : List Char) :
    ∃ w, w ++ List.dropWhile p l = l := by
  induction l with
  | nil => exact ⟨[], rfl⟩
  | cons a t ih =>
    by_cases h : p a
    · obtain ⟨w, hw⟩ := ih
      exact ⟨a :: w, by simp [List.dropWhile_cons, h, hw]⟩
    · exact ⟨[], by simp [List.dropWhile_cons, h]⟩

theorem dropTrailing_dropTrailing (l : List Char) :
    dropTrailing (dropTrailing l) = dropTrailing l := by
  unfold dropTrailing
  rw [List.reverse_reverse, dropWhile_dropWhile]

theorem dropLeading_dropTrailing (l : List Char) (h : dropLeading l = l) :
    dropLeading (dropTrailing l) = dropTrailing l := by
  obtain ⟨w, hw⟩ := exists_append_dropWhile jsWs l.reverse
  have hl : l = (l.reverse.dropWhile jsWs).reverse ++ w.reverse := by
    have h2 := congrArg List.reverse hw
    simpa [List.reverse_append] using h2.symm
  cases hvr : (l.reverse.dropWhile jsWs).reverse with
  | nil =>
    unfold dropTrailing dropLeading
    rw [hvr]
    rfl
  | cons c cs =>
    have hlc : l = c :: (cs ++ w.reverse) := by
      rw [hl, hvr]
      simp
    have hws : jsWs c = false := by
      by_contra hc
      have hc2 : jsWs c = true := by
        cases h3 : jsWs c
        · exact absurd h3 hc
        · rfl
      have h1 : List.dropWhile jsWs l = List.dropWhile jsWs (cs ++ w.reverse) := by
        rw [hlc]
        simp [List.dropWhile_cons, hc2]
      have h2 : l = List.dropWhile jsWs (cs ++ w.reverse) := by
        unfold dropLeading at h
        rw [← h1, h]
      have h3 : l.length ≤ (cs ++ w.reverse).length := by
        rw [h2]
        exact (List.dropWhile_suffix _).length_le
      have h4 : l.length = (cs ++ w.reverse).length + 1 := by
        rw [hlc]
        simp
      omega
    show dropLeading (dropTrailing l) = dropTrailing l
    unfold dropTrailing dropLeading
    rw [hvr]
    simp [List.dropWhile_cons, hws]

theorem jsTrim_idem (l : List Char) : jsTrim (jsTrim l) = jsTrim l := by
  unfold jsTrim
  rw [dropLeading_dropTrailing (dropLeading l) (dropWhile_dropWhile jsWs l),
    dropTrailing_dropTrailing]

/-- C2 counterexample: the normalizer preserves the letter case of the
name, so the lower-case variant does not normalize to the claimed
capitalized form, and the three claimed inputs do not all agree. -/
theorem claim_C2_counterexample :
    normalizeCountyName "foo county" ≠ normalizeCountyName "Foo County" ∧
    normalizeCountyName "foo county" = "foo" ∧
    normalizeCountyName "Foo County" = "Foo" := by decide

/-- C2 amended: normalizeCountyName strips a trailing County word
case-insensitively and trims surrounding whitespace, but preserves the
case of the remaining name: Foo County and padded Foo both give Foo, while
foo county gives foo and FOO COUNTY gives FOO. -/
theorem claim_C2 :
    normalizeCountyName "Foo County" = "Foo" ∧
    normalizeCountyName " Foo " = "Foo" ∧
    normalizeCountyName "foo county" = "foo" ∧
    normalizeCountyName "FOO COUNTY" = "FOO" := by decide

/-- C6 counterexample: normalization is not idempotent.  On the input
Foo County followed by a space the regexp does not match (the string does
not end in the word County), so one pass only trims and yields Foo County,
while a second pass strips the now-exposed suffix and yields Foo. -/
theorem claim_C6_counterexample :
    normalizeCountyName (normalizeCountyName "Foo County ") ≠
      normalizeCountyName "Foo County " ∧
    normalizeCountyName "Foo County " = "Foo County" ∧
    normalizeCountyName (normalizeCountyName "Foo County ") = "Foo" := by decide

/-- C6 amended: normalization is idempotent on every input whose
normalized form does not itself end in whitespace followed by the word
County; a second application changes the result only when the first strip
and trim expose a new trailing County suffix. -/
theorem claim_C6 (s : String) (h : endsWithWsCounty (normalizeCountyName s).data = false) :
    normalizeCountyName (normalizeCountyName s) = normalizeCountyName s := by
  have h0 : endsWithWsCounty (jsTrim (stripCountySuffix s.data)) = false := h
  have h2 : stripCountySuffix (jsTrim (stripCountySuffix s.data)) =
      jsTrim (stripCountySuffix s.data) := by
    rw [stripCountySuffix, h0]
    simp
  show (⟨jsTrim (stripCountySuffix (jsTrim (stripCountySuffix s.data)))⟩ : String) =
    ⟨jsTrim (stripCountySuffix s.data)⟩
  rw [h2, jsTrim_idem]

/-- C6 witness: a regular county name, El Paso County, satisfies the side
condition and normalizing twice agrees with normalizing once. -/
theorem claim_C6_witness :
    endsWithWsCounty (normalizeCountyName "El Paso County").data = false ∧
    normalizeCountyName (normalizeCountyName "El Paso County") =
      normalizeCountyName "El Paso County" :=
  ⟨by decide, claim_C6 "El Paso County" (by decide)⟩

/-!
Data model: the CountyData interface of the types module.  Numeric values
are rationals, the nullable visibility triple uses Option, the alerts
array is optional, and a hazard entry is either a bare string, a
structured object with string fields in insertion order, or some other
value (null, number, boolean), mirroring the dynamic checks in the
detail card.
-/

/-- Hazard entry: a bare label, an object given as its fields in insertion
order, or a value that is neither a string nor an object. -/
inductive Hazard where
  | str (s : String)
  | obj (fields : List (String × String))
  | other
deriving DecidableEq

/-- Alert entry with event, headline, optional severity and description.
The severity is optional because the classifier probes it with optional
chaining. -/
structure Alert where
  event : String
  headline : String
  severity : Option String
  description : Option String
deriving DecidableEq

/-- Measurement triple with a numeric value, a unit and a valid time. -/
structure Measurement where
  value : ℚ
  unit : String
  validTime : String
deriving DecidableEq

/-- Visibility triple: every component may be null. -/
structure VisibilityMeasurement where
  value : Option ℚ
  unit : Option String
  validTime : Option String
deriving DecidableEq

/-- Weather payload of one county record. -/
structure WeatherData where
  temperature : Measurement
  relativeHumidity : Measurement
  hazards : List Hazard
  probabilityOfPrecipitation : Measurement
  visibility : VisibilityMeasurement
  alerts : Option (List Alert)
deriving DecidableEq

/-- Geographic point of a county. -/
structure Coordinates where
  latitude : ℚ
  longitude : ℚ
deriving DecidableEq

/-- One county record as published and consumed by the map. -/
structure CountyData where
  countyName : String
  coordinates : Coordinates
  data : WeatherData
deriving DecidableEq

/-- Metric selector of the map tabs. -/
inductive DataType where
  | temperature
  | precipitation
  | hazards
  | visibility
  | alerts
deriving DecidableEq

/-- Lower-case a string the way toLowerCase does on ASCII letters. -/
def jsToLower (s : String) : String := ⟨s.data.map Char.toLower⟩

/-- Lowered severity of an alert, as computed with optional chaining. -/
def sevLower (a : Alert) : Option String := a.severity.map jsToLower

/-- One step of the forEach loop that finds the most severe alert: an
extreme severity always wins, severe wins unless extreme was seen,
moderate wins unless extreme or severe was seen, and anything else
(minor, unknown or absent) leaves the accumulator unchanged. -/
def updateSeverity (highest : String) (a : Alert) : String :=
  if sevLower a = some "extreme" then "extreme"
  else if sevLower a = some "severe" ∧ highest ≠ "extreme" then "severe"
  else if sevLower a = some "moderate" ∧ highest ≠ "extreme" ∧ highest ≠ "severe" then
    "moderate"
  else highest

/-- Fold of updateSeverity over the alerts, started at minor. -/
def highestSeverity (alerts : List Alert) : String :=
  alerts.foldl updateSeverity "minor"

/-- Switch at the end of the alerts branch: extreme and severe map to red,
moderate to orange, everything else to yellow. -/
def severitySwitchColor (s : String) : String :=
  if s = "extreme" ∨ s = "severe" then "#FF0000"
  else if s = "moderate" then "#FFA500"
  else "#FFFF00"

/-- Embedding of getColor from the map utilities: per metric, the exact
threshold chain of the source. -/
def getColor (county : CountyData) (dataType : DataType) : String :=
  match dataType with
  | DataType.temperature =>
    let temp := county.data.temperature.value
    if temp < 0 then "#9CA3AF"
    else if temp < 10 then "#F7FCFD"
    else if temp < 20 then "#FFD166"
    else if temp < 30 then "#FF9966"
    else "#FF5F5F"
  | DataType.precipitation =>
    let p := county.data.probabilityOfPrecipitation.value
    if p = 0 then "#FFFFFF"
    else if p ≤ 20 then "#E6F0FF"
    else if p ≤ 40 then "#B3D9FF"
    else if p ≤ 60 then "#80C2FF"
    else if p ≤ 80 then "#4DA6FF"
    else "#1A8CFF"
  | DataType.hazards =>
    if county.data.hazards.length > 0 then "#FF5F5F" else "#F7FCFD"
  | DataType.visibility =>
    match county.data.visibility.value with
    | none => "#F7FCFD"
    | some v =>
      if v = 0 then "#F7FCFD"
      else if v < 1000 then "#FF5F5F"
      else if v < 5000 then "#FF9966"
      else if v < 10000 then "#FFD166"
      else "#F7FCFD"
  | DataType.alerts =>
    match county.data.alerts with
    | none => "#F7FCFD"
    | some l =>
      if l.length = 0 then "#F7FCFD"
      else severitySwitchColor (highestSeverity l)

/-- Embedding of findCountyByName: first record whose normalized name
equals the normalized query. -/
def findCountyByName (counties : List CountyData) (name : String) : Option CountyData :=
  counties.find? fun county =>
    normalizeCountyName county.countyName == normalizeCountyName name

/-- Embedding of generateFillColorExpression: the county branches of the
maplibre match expression as key-color pairs in record order, together
with the trailing fallback color. -/
def generateFillColorExpression (counties : List CountyData) (dataType : DataType) :
    List (String × String) × String :=
  (counties.map fun county =>
    (county.countyName ++ " County", getColor county dataType), "#CCCCCC")

/-- Semantics of a maplibre match expression: the color of the first
branch whose label equals the looked-up value, the fallback otherwise. -/
def matchEval (pairs : List (String × String)) (fallback : String) (label : String) :
    String :=
  match pairs.find? fun p => p.1 == label with
  | some p => p.2
  | none => fallback

/-- Convenience constructor for concrete county records used in witnesses. -/
def mkCounty (name : String) (temp precip : ℚ) (vis : Option ℚ)
    (hz : List Hazard) (al : Option (List Alert)) : CountyData :=
  { countyName := name
    coordinates := { latitude := 30, longitude := -97 }
    data :=
      { temperature := { value := temp, unit := "wmoUnit:degC", validTime := "t" }
        relativeHumidity := { value := 50, unit := "wmoUnit:percent", validTime := "t" }
        hazards := hz
        probabilityOfPrecipitation :=
          { value := precip, unit := "wmoUnit:percent", validTime := "t" }
        visibility := { value := vis, unit := none, validTime := none }
        alerts := al } }

/-!
Severity ranking.  The loop in the alerts branch computes the maximum of
the per-alert ranks under extreme over severe over moderate over minor,
with unknown or absent severities ranking as minor.
-/

/-- Numeric rank of the severity of one alert: extreme 3, severe 2,
moderate 1, everything else (minor, unknown, absent) 0. -/
def alertRank (a : Alert) : ℕ :=
  if sevLower a = some "extreme" then 3
  else if sevLower a = some "severe" then 2
  else if sevLower a = some "moderate" then 1
  else 0

/-- Name of a severity rank. -/
def rankName (r : ℕ) : String :=
  if r = 3 then "extreme"
  else if r = 2 then "severe"
  else if r = 1 then "moderate"
  else "minor"

/-- Worst rank present in a list of alerts. -/
def worstRank (l : List Alert) : ℕ :=
  l.foldl (fun acc a => max acc (alertRank a)) 0

theorem alertRank_le_three (a : Alert) : alertRank a ≤ 3 := by
  unfold alertRank
  split_ifs <;> omega

theorem updateSeverity_rankName (a : Alert) (r : ℕ) (hr : r ≤ 3) :
    updateSeverity (rankName r) a = rankName (max r (alertRank a)) := by
  have hcase : r = 0 ∨ r = 1 ∨ r = 2 ∨ r = 3 := by omega
  by_cases h3 : sevLower a = some "extreme" <;>
    by_cases h2 : sevLower a = some "severe" <;>
      by_cases h1 : sevLower a = some "moderate" <;>
        rcases hcase with rfl | rfl | rfl | rfl <;>
          simp [updateSeverity, alertRank, rankName, h1, h2, h3]

theorem foldl_updateSeverity (l : List Alert) :
    ∀ r : ℕ, r ≤ 3 →
      List.foldl updateSeverity (rankName r) l =
        rankName (List.foldl (fun acc a => max acc (alertRank a)) r l) := by
  induction l with
  | nil => intro r hr; rfl
  | cons a t ih =>
    intro r hr
    simp only [List.foldl_cons]
    rw [updateSeverity_rankName a r hr]
    exact ih (max r (alertRank a))
      (by have := alertRank_le_three a; omega)

theorem highestSeverity_eq_worst (l : List Alert) :
    highestSeverity l = rankName (worstRank l) :=
  foldl_updateSeverity l 0 (by omega)

/-- C1: under the alerts metric, the color of a county with a nonempty
alerts list is a function of the worst severity rank alone, under the
rank extreme over severe over moderate over minor, with unknown or absent
severities ranked as minor. -/
theorem claim_C1 (c : CountyData) (l : List Alert)
    (halerts : c.data.alerts = some l) (hne : l ≠ []) :
    getColor c DataType.alerts = severitySwitchColor (rankName (worstRank l)) := by
  have hlen : l.length ≠ 0 := by
    cases l with
    | nil => exact absurd rfl hne
    | cons a t => simp
  simp [getColor, halerts, hlen, highestSeverity_eq_worst]

/-- Concrete alerts list with a minor and an extreme alert. -/
def minorExtremeAlerts : List Alert :=
  [{ event := "Flood Advisory", headline := "h1", severity := some "minor",
     description := none },
   { event := "Tornado Warning", headline := "h2", severity := some "extreme",
     description := none }]

/-- County carrying the minor-plus-extreme alert pair. -/
def minorExtremeCounty : CountyData :=
  mkCounty "Travis" 20 0 (some 10000) [] (some minorExtremeAlerts)

/-- Single minor alert list, for contrast. -/
def minorOnlyAlerts : List Alert :=
  [{ event := "Flood Advisory", headline := "h1", severity := some "minor",
     description := none }]

/-- County carrying the single minor alert. -/
def minorOnlyCounty : CountyData :=
  mkCounty "Blanco" 20 0 (some 10000) [] (some minorOnlyAlerts)

/-- C1 witness: the minor-plus-extreme county classifies by its worst
severity, which is extreme, giving the extreme color, different from the
color of a county whose only alert is minor and from an average. -/
theorem claim_C1_witness :
    getColor minorExtremeCounty DataType.alerts =
      severitySwitchColor (rankName (worstRank minorExtremeAlerts)) ∧
    severitySwitchColor (rankName (worstRank minorExtremeAlerts)) = "#FF0000" ∧
    getColor minorOnlyCounty DataType.alerts = "#FFFF00" :=
  ⟨claim_C1 minorExtremeCounty minorExtremeAlerts rfl (by simp [minorExtremeAlerts]),
   by decide, by decide⟩

/-- C3: the temperature metric sends every county into exactly one of the
five buckets below 0, 0 to 10, 10 to 20, 20 to 30, and 30 upward, each
with its fixed color, with inclusive lower and exclusive upper bounds;
in particular a temperature of exactly 10 lands in the 10 to 20 bucket. -/
theorem claim_C3 :
    (∀ c : CountyData,
      (c.data.temperature.value < 0 ∧ getColor c DataType.temperature = "#9CA3AF") ∨
      (0 ≤ c.data.temperature.value ∧ c.data.temperature.value < 10 ∧
        getColor c DataType.temperature = "#F7FCFD") ∨
      (10 ≤ c.data.temperature.value ∧ c.data.temperature.value < 20 ∧
        getColor c DataType.temperature = "#FFD166") ∨
      (20 ≤ c.data.temperature.value ∧ c.data.temperature.value < 30 ∧
        getColor c DataType.temperature = "#FF9966") ∨
      (30 ≤ c.data.temperature.value ∧
        getColor c DataType.temperature = "#FF5F5F")) ∧
    getColor (mkCounty "Test" 10 0 none [] none) DataType.temperature = "#FFD166" := by
  constructor
  · intro c
    rcases lt_or_le c.data.temperature.value 0 with h0 | h0
    · exact Or.inl ⟨h0, by simp [getColor, h0]⟩
    rcases lt_or_le c.data.temperature.value 10 with h10 | h10
    · exact Or.inr (Or.inl ⟨h0, h10, by simp [getColor, not_lt.mpr h0, h10]⟩)
    rcases lt_or_le c.data.temperature.value 20 with h20 | h20
    · exact Or.inr (Or.inr (Or.inl ⟨h10, h20,
        by simp [getColor, not_lt.mpr h0, not_lt.mpr h10, h20]⟩))
    rcases lt_or_le c.data.temperature.value 30 with h30 | h30
    · exact Or.inr (Or.inr (Or.inr (Or.inl ⟨h20, h30,
        by simp [getColor, not_lt.mpr h0, not_lt.mpr h10, not_lt.mpr h20, h30]⟩)))
    · exact Or.inr (Or.inr (Or.inr (Or.inr ⟨h30,
        by simp [getColor, not_lt.mpr h0, not_lt.mpr h10, not_lt.mpr h20,
          not_lt.mpr h30]⟩)))
  · decide

/-!
County detail card helpers and the visibility legend of the map controls.
-/

/-- Legend entries of the visibility tab: color and label, in order. -/
def visibilityLegendItems : List (String × String) :=
  [("#FF5F5F", "Very poor (<1km)"),
   ("#FF9966", "Poor (1-5km)"),
   ("#FFD166", "Moderate (5-10km)"),
   ("#64B6FF", "Good (>10km)"),
   ("#9CA3AF", "Data not available")]

/-- Badge color for visibility in the detail card: a strict null check,
then the same distance thresholds as the map classifier. -/
def getVisibilityBadgeColor (meters : Option ℚ) : String :=
  match meters with
  | none => "bg-gray-400 text-white"
  | some m =>
    if m < 1000 then "bg-red-500 text-white"
    else if m < 5000 then "bg-orange-500"
    else if m < 10000 then "bg-yellow-400"
    else "bg-blue-500 text-white"

/-- Lookup of a field of a hazard object by key, in the sense of property
access: the stored value, when the key is present. -/
def objField (fields : List (String × String)) (key : String) : Option String :=
  match fields.find? fun p => p.1 == key with
  | some p => some p.2
  | none => none

/-- Truthy lookup: a field passes the if test exactly when it is present
and not the empty string. -/
def truthyField (fields : List (String × String)) (key : String) : Option String :=
  match objField fields key with
  | some v => if v = "" then none else some v
  | none => none

/-- JSON serialization of a hazard object with string fields, in insertion
order, as produced for such values by the stringify fallback. -/
def stringifyObj (fields : List (String × String)) : String :=
  "\x7b" ++
    String.intercalate ","
      (fields.map fun p => "\"" ++ p.1 ++ "\":\"" ++ p.2 ++ "\"") ++
  "\x7d"

/-- Embedding of getHazardDisplayText: a bare string is returned as is;
an object is probed for event, type, name, description and phenomenon in
that order, and failing all of them is serialized to JSON (the stringify
call cannot throw on such plain string-field objects, so its catch branch
is dead); any other value gives the generic label. -/
def getHazardDisplayText (h : Hazard) : String :=
  match h with
  | Hazard.str s => s
  | Hazard.obj fields =>
    match truthyField fields "event" with
    | some v => v
    | none =>
      match truthyField fields "type" with
      | some v => v
      | none =>
        match truthyField fields "name" with
        | some v => v
        | none =>
          match truthyField fields "description" with
          | some v => v
          | none =>
            match truthyField fields "phenomenon" with
            | some v => v
            | none => stringifyObj fields
  | Hazard.other => "Unknown hazard"

/-- Embedding of formatHazards: the empty list displays None, any other
list joins the per-entry display texts with a comma and a space. -/
def formatHazards (hazards : List Hazard) : String :=
  if hazards.length = 0 then "None"
  else String.intercalate ", " (hazards.map getHazardDisplayText)

/-- C4: the map classifier does not keep the unavailable state apart from
the numeric buckets.  A county with null visibility and a county in the
good bucket (16093 meters) both color as the same string, and that string
is not even among the legend colors, whose five entries, including the
distinct Data-not-available gray, are pairwise different. -/
theorem claim_C4 :
    getColor (mkCounty "Foard" 20 0 none [] none) DataType.visibility = "#F7FCFD" ∧
    getColor (mkCounty "Blanco" 20 0 (some 16093) [] none) DataType.visibility =
      "#F7FCFD" ∧
    (visibilityLegendItems.map Prod.fst).Nodup ∧
    "#F7FCFD" ∉ visibilityLegendItems.map Prod.fst := by decide

/-- C8: the classifier treats a zero visibility reading like a missing
one.  Because the branch guard is the falsiness test of the value, a
county measuring exactly 0 meters gets the same color as a county with
null visibility instead of the very-poor color, while the detail card
badge, which compares against null strictly, does distinguish the two. -/
theorem claim_C8 :
    getColor (mkCounty "Llano" 20 0 (some 0) [] none) DataType.visibility =
      "#F7FCFD" ∧
    getColor (mkCounty "Llano" 20 0 (some 0) [] none) DataType.visibility =
      getColor (mkCounty "Foard" 20 0 none [] none) DataType.visibility ∧
    getColor (mkCounty "Llano" 20 0 (some 0) [] none) DataType.visibility ≠
      "#FF5F5F" ∧
    getVisibilityBadgeColor (some 0) = "bg-red-500 text-white" ∧
    getVisibilityBadgeColor none = "bg-gray-400 text-white" ∧
    getVisibilityBadgeColor (some 0) ≠ getVisibilityBadgeColor none := by decide

/-- C5 counterexample: a hazard object with no known descriptive field is
displayed as its JSON serialization, not as the generic unknown-hazard
label; the empty object displays as a pair of braces. -/
theorem claim_C5_counterexample :
    getHazardDisplayText (Hazard.obj []) = "\x7b\x7d" ∧
    getHazardDisplayText (Hazard.obj []) ≠ "Unknown hazard" ∧
    getHazardDisplayText (Hazard.obj []) ≠ "unknown hazard" := by decide

/-- C5 amended: display extraction is total; a bare string displays as
itself; object fields are probed in the fixed order event, type, name,
description, phenomenon, where a field counts only when present and
nonempty; an object lacking all five falls back to its JSON serialization
rather than failing; and only a hazard that is neither a string nor an
object yields the generic Unknown hazard label. -/
theorem claim_C5 (fields : List (String × String)) (v : String) :
    (∀ s, getHazardDisplayText (Hazard.str s) = s) ∧
    (truthyField fields "event" = some v →
      getHazardDisplayText (Hazard.obj fields) = v) ∧
    (truthyField fields "event" = none →
      truthyField fields "type" = some v →
      getHazardDisplayText (Hazard.obj fields) = v) ∧
    (truthyField fields "event" = none →
      truthyField fields "type" = none →
      truthyField fields "name" = some v →
      getHazardDisplayText (Hazard.obj fields) = v) ∧
    (truthyField fields "event" = none →
      truthyField fields "type" = none →
      truthyField fields "name" = none →
      truthyField fields "description" = some v →
      getHazardDisplayText (Hazard.obj fields) = v) ∧
    (truthyField fields "event" = none →
      truthyField fields "type" = none →
      truthyField fields "name" = none →
      truthyField fields "description" = none →
      truthyField fields "phenomenon" = some v →
      getHazardDisplayText (Hazard.obj fields) = v) ∧
    (truthyField fields "event" = none →
      truthyField fields "type" = none →
      truthyField fields "name" = none →
      truthyField fields "description" = none →
      truthyField fields "phenomenon" = none →
      getHazardDisplayText (Hazard.obj fields) = stringifyObj fields) ∧
    getHazardDisplayText Hazard.other = "Unknown hazard" := by
  refine ⟨fun s => rfl, ?_, ?_, ?_, ?_, ?_, ?_, rfl⟩
  · intro h1
    simp [getHazardDisplayText, h1]
  · intro h1 h2
    simp [getHazardDisplayText, h1, h2]
  · intro h1 h2 h3
    simp [getHazardDisplayText, h1, h2, h3]
  · intro h1 h2 h3 h4
    simp [getHazardDisplayText, h1, h2, h3, h4]
  · intro h1 h2 h3 h4 h5
    simp [getHazardDisplayText, h1, h2, h3, h4, h5]
  · intro h1 h2 h3 h4 h5
    simp [getHazardDisplayText, h1, h2, h3, h4, h5]

/-- C5 witness: an object whose only field is unknown to the probe list
displays as its serialization, which is not the generic label. -/
theorem claim_C5_witness :
    getHazardDisplayText (Hazard.obj [("code", "123")]) =
      stringifyObj [("code", "123")] ∧
    stringifyObj [("code", "123")] ≠ "Unknown hazard" :=
  ⟨(claim_C5 [("code", "123")] "x").2.2.2.2.2.2.1
      (by decide) (by decide) (by decide) (by decide) (by decide),
   by decide⟩

/-- C7: the county lookup succeeds exactly when some record normalizes to
the normalized query name, and any record it returns is a member of the
list whose normalized name equals the normalized query: two records join
precisely when their normalized forms are equal. -/
theorem claim_C7 (counties : List CountyData) (name : String) :
    ((findCountyByName counties name).isSome ↔
      ∃ c ∈ counties,
        normalizeCountyName c.countyName = normalizeCountyName name) ∧
    ∀ c, findCountyByName counties name = some c →
      c ∈ counties ∧ normalizeCountyName c.countyName = normalizeCountyName name := by
  constructor
  · simp [findCountyByName, List.find?_isSome]
  · intro c hc
    have h1 := List.mem_of_find?_eq_some hc
    have h2 := List.find?_some hc
    exact ⟨h1, by simpa using h2⟩

/-- Concrete record for the lookup witness. -/
def harrisCounty : CountyData :=
  mkCounty "Harris" 25 80 (some 3000) [Hazard.str "Flood Warning"] none

/-- C7 witness: looking up Harris County in the singleton list returns a
record that is in the list and normalizes to the normalized query. -/
theorem claim_C7_witness :
    harrisCounty ∈ [harrisCounty] ∧
    normalizeCountyName harrisCounty.countyName =
      normalizeCountyName "Harris County" :=
  (claim_C7 [harrisCounty] "Harris County").2 harrisCounty (by decide)

/-- C10: the generated fill-color expression lists, for each record in
order, the branch keyed by the county name with the word County appended,
paired with exactly the classifier color of that record, ends in the
fallback color, and evaluates to the fallback on every label that is not
the key of any record. -/
theorem claim_C10 (counties : List CountyData) (dataType : DataType) :
    (∀ i : ℕ,
      ((generateFillColorExpression counties dataType).1)[i]? =
        (counties[i]?).map fun c =>
          (c.countyName ++ " County", getColor c dataType)) ∧
    (generateFillColorExpression counties dataType).2 = "#CCCCCC" ∧
    ∀ label : String,
      (∀ c ∈ counties, label ≠ c.countyName ++ " County") →
      matchEval (generateFillColorExpression counties dataType).1
        (generateFillColorExpression counties dataType).2 label = "#CCCCCC" := by
  refine ⟨?_, rfl, ?_⟩
  · intro i
    simp [generateFillColorExpression]
  · intro label h
    have hnone :
        List.find? (fun p => p.1 == label)
          (counties.map fun c => (c.countyName ++ " County", getColor c dataType)) =
          none := by
      rw [List.find?_eq_none]
      rintro ⟨k, col⟩ hmem
      simp only [List.mem_map] at hmem
      obtain ⟨c, hcmem, heq⟩ := hmem
      have hk : k = c.countyName ++ " County" := by
        have := congrArg Prod.fst heq
        simpa using this.symm
      simp [hk]
      exact fun hl => h c hcmem hl.symm
    simp [matchEval, generateFillColorExpression, hnone]

/-- C10 witness: with one concrete record, a label that is no key of the
data evaluates to the fallback color. -/
theorem claim_C10_witness :
    matchEval (generateFillColorExpression [harrisCounty] DataType.temperature).1
      (generateFillColorExpression [harrisCounty] DataType.temperature).2
      "Atlantis County" = "#CCCCCC" :=
  (claim_C10 [harrisCounty] DataType.temperature).2.2 "Atlantis County" (by decide)

/-!
Data publisher.  The collection and publishing script invoked by the
scheduled workflow is not among the sources, so it is modelled from the
specification.
-/

/-- Published artifact set at its well-known location: the JSON array,
the CSV tabular form, and the last-updated object.  A slot is none when
the file does not exist yet. -/
structure Artifacts where
  weatherJson : Option String
  weatherCsv : Option String
  timestampJson : Option String
deriving DecidableEq

/-- Decimal rendering of a rational as numerator over denominator, fixed
so serialization is a function of the value alone. -/
def ratLit (q : ℚ) : String :=
  toString q.num ++ "/" ++ toString q.den

/-- JSON rendering of an optional string field. -/
def optLit (o : Option String) : String :=
  match o with
  | none => "null"
  | some s => "\"" ++ s ++ "\""

/-- JSON rendering of one hazard entry. -/
def hazardLit (h : Hazard) : String :=
  match h with
  | Hazard.str s => "\"" ++ s ++ "\""
  | Hazard.obj fields => stringifyObj fields
  | Hazard.other => "null"

/-- JSON rendering of one alert entry. -/
def alertLit (a : Alert) : String :=
  "\x7b\"event\":\"" ++ a.event ++ "\",\"headline\":\"" ++ a.headline ++
    "\",\"severity\":" ++ optLit a.severity ++ "\x7d"

/-- Modelled from the spec: the JSON rendering of one CountyRecord as
written by the missing collection script (spec sections 3, 4.3 and 6):
the display name, the coordinates, the measurement triples, the hazard
list and the alert list. -/
def recordJson (c : CountyData) : String :=
  "\x7b\"countyName\":\"" ++ c.countyName ++
    "\",\"latitude\":" ++ ratLit c.coordinates.latitude ++
    ",\"longitude\":" ++ ratLit c.coordinates.longitude ++
    ",\"temperature\":" ++ ratLit c.data.temperature.value ++
    ",\"relativeHumidity\":" ++ ratLit c.data.relativeHumidity.value ++
    ",\"probabilityOfPrecipitation\":" ++
      ratLit c.data.probabilityOfPrecipitation.value ++
    ",\"visibility\":" ++
      (match c.data.visibility.value with
       | none => "null"
       | some v => ratLit v) ++
    ",\"hazards\":[" ++ String.intercalate "," (c.data.hazards.map hazardLit) ++
    "],\"alerts\":[" ++
      (match c.data.alerts with
       | none => ""
       | some l => String.intercalate "," (l.map alertLit)) ++
    "]\x7d"

/-- Modelled from the spec: the array artifact, a JSON array of records
(spec section 6, texas_counties_weather.json). -/
def recordsJson (records : List CountyData) : String :=
  "[" ++ String.intercalate "," (records.map recordJson) ++ "]"

/-- Modelled from the spec: one CSV row of the flat tabular form. -/
def recordCsvRow (c : CountyData) : String :=
  String.intercalate ","
    [c.countyName, ratLit c.coordinates.latitude, ratLit c.coordinates.longitude,
     ratLit c.data.temperature.value, ratLit c.data.relativeHumidity.value,
     ratLit c.data.probabilityOfPrecipitation.value,
     match c.data.visibility.value with
     | none => ""
     | some v => ratLit v]

/-- Modelled from the spec: the CSV artifact with a fixed header row
(spec section 6, texas_counties_weather.csv). -/
def recordsCsv (records : List CountyData) : String :=
  String.intercalate "\n"
    ("countyName,latitude,longitude,temperature,relativeHumidity,probabilityOfPrecipitation,visibility"
      :: records.map recordCsvRow)

/-- Modelled from the spec: the last-updated artifact, a one-field JSON
object (spec section 6, weather_timestamp.json). -/
def timestampArtifact (timestamp : String) : String :=
  "\x7b\"last_updated\": \"" ++ timestamp ++ "\"\x7d"

/-- Modelled from the spec: publish (spec section 4.3) serializes the
records and the timestamp into the three artifacts and replaces any prior
version wholesale (spec section 3, lifecycle: the previous snapshot is
entirely replaced, not merged). -/
def publish (records : List CountyData) (timestamp : String)
    (_prior : Artifacts) : Artifacts :=
  { weatherJson := some (recordsJson records)
    weatherCsv := some (recordsCsv records)
    timestampJson := some (timestampArtifact timestamp) }

/-- C9: publishing is idempotent.  The artifacts written for a given
records sequence and timestamp do not depend on the prior state, so two
runs with identical input leave byte-identical artifacts, and publishing
on top of an identical publish changes nothing. -/
theorem claim_C9 (records : List CountyData) (timestamp : String)
    (prior other : Artifacts) :
    publish records timestamp prior = publish records timestamp other ∧
    publish records timestamp (publish records timestamp prior) =
      publish records timestamp prior :=
  ⟨rfl, rfl⟩

end TexasChoropleth
